import Mathlib

/-!
Shallow embedding of the AnimeDayy update-and-license server (`app.py`).

Persistence is modelled by passing the stored document in and out of each
handler; `datetime.now().isoformat()` is modelled by a `now : String`
parameter (all timestamps taken during one request are the same instant in
the source, hence a single parameter per request).  The boolean component
of a handler's result records whether the handler wrote the store back to
disk (`save_licenses` / `save_update_info` was called).
-/

/-- A license record, one element of the `licenses` list of `licenses.json`. -/
structure License where
  code : String
  status : String
  device_id : Option String
  device_name : Option String
  activated_at : Option String
  created_at : String
  note : String
deriving Repr, DecidableEq

/-- The whole license document: `{ "licenses": [...], "last_updated": ... }`. -/
structure LicenseDoc where
  licenses : List License
  last_updated : String
deriving Repr, DecidableEq

/-- The update document with every schema field present (the shape produced by
`get_default_data` and assumed by the read handlers). -/
structure UpdateInfo where
  version_code : Int
  version_name : String
  update_required : Bool
  update_title : String
  update_message : String
  download_url : String
  whats_new : List String
  maintenance_mode : Bool
  maintenance_title : String
  maintenance_message : String
  maintenance_estimated_end : String
  last_updated : String
deriving Repr, DecidableEq

/-- The update document as it may sit on disk: being a free-form JSON object,
any schema field may be absent (`none`). -/
structure StoredUpdateInfo where
  version_code : Option Int
  version_name : Option String
  update_required : Option Bool
  update_title : Option String
  update_message : Option String
  download_url : Option String
  whats_new : Option (List String)
  maintenance_mode : Option Bool
  maintenance_title : Option String
  maintenance_message : Option String
  maintenance_estimated_end : Option String
  last_updated : Option String
deriving Repr, DecidableEq

/-- View an every-field-present document as a stored JSON object. -/
def UpdateInfo.toStored (d : UpdateInfo) : StoredUpdateInfo :=
  { version_code := some d.version_code
    version_name := some d.version_name
    update_required := some d.update_required
    update_title := some d.update_title
    update_message := some d.update_message
    download_url := some d.download_url
    whats_new := some d.whats_new
    maintenance_mode := some d.maintenance_mode
    maintenance_title := some d.maintenance_title
    maintenance_message := some d.maintenance_message
    maintenance_estimated_end := some d.maintenance_estimated_end
    last_updated := some d.last_updated }

/-- `get_default_data` from `app.py`. -/
def get_default_data (now : String) : UpdateInfo :=
  { version_code := 1
    version_name := "1.0.0"
    update_required := false
    update_title := ""
    update_message := ""
    download_url := ""
    whats_new := []
    maintenance_mode := false
    maintenance_title := "Aplikasi Sedang Maintenance"
    maintenance_message := "Mohon maaf, aplikasi sedang dalam perbaikan. Silakan coba beberapa saat lagi."
    maintenance_estimated_end := ""
    last_updated := now }

/-- `get_default_license_data` from `app.py`. -/
def get_default_license_data (now : String) : LicenseDoc :=
  { licenses := [], last_updated := now }

/-- `save_licenses`: stamps `last_updated` with the current time before the
full-document overwrite.  The returned document is what reaches the disk. -/
def save_licenses (d : LicenseDoc) (now : String) : LicenseDoc :=
  { d with last_updated := now }

/-- `save_update_info` on an every-field-present document. -/
def save_update_info (d : UpdateInfo) (now : String) : UpdateInfo :=
  { d with last_updated := now }

/-- `save_update_info` on a raw stored document. -/
def save_stored_update_info (d : StoredUpdateInfo) (now : String) : StoredUpdateInfo :=
  { d with last_updated := some now }

/-- The three ways reading a backing file can go wrong, plus success:
the file is absent (`FileNotFoundError`), its content strips to the empty
string, its content is invalid JSON (`json.JSONDecodeError`), or it parses. -/
inductive FileContent (α : Type) where
  | absent
  | empty
  | malformed
  | valid (data : α)

/-- `load_licenses`: on any read failure, builds the default document, saves
it, and returns it.  The second component is the document written back to
disk during the load (`none` when nothing was written). -/
def load_licenses (fs : FileContent LicenseDoc) (now : String) :
    LicenseDoc × Option LicenseDoc :=
  match fs with
  | .valid d => (d, none)
  | _ =>
    let w := save_licenses (get_default_license_data now) now
    (w, some w)

/-- `load_update_info`: on read failure behaves like `load_licenses` with the
update defaults; on success backfills exactly the four maintenance fields
(`maintenance_mode`, `maintenance_title`, `maintenance_message`,
`maintenance_estimated_end`) when absent.  No other field is backfilled. -/
def load_update_info (fs : FileContent StoredUpdateInfo) (now : String) :
    StoredUpdateInfo × Option StoredUpdateInfo :=
  match fs with
  | .valid d =>
    ({ d with
        maintenance_mode := some (d.maintenance_mode.getD false)
        maintenance_title := some (d.maintenance_title.getD "Aplikasi Sedang Maintenance")
        maintenance_message := some (d.maintenance_message.getD
          "Mohon maaf, aplikasi sedang dalam perbaikan. Silakan coba beberapa saat lagi.")
        maintenance_estimated_end := some (d.maintenance_estimated_end.getD "") }, none)
  | _ =>
    let w := save_stored_update_info (get_default_data now).toStored now
    (w, some w)

/-- The alphabet `string.ascii_uppercase + string.digits` used by
`generate_license_code`. -/
def license_chars : List Char :=
  "ABCDEFGHIJKLMNOPQRSTUVWXYZ0123456789".toList

/-- `code[i:i+4] for i in range(0, len(code), 4)`: split into blocks of four
characters (a final shorter block when the length is not a multiple of 4). -/
def chunks4 : List Char → List (List Char)
  | [] => []
  | c0 :: c1 :: c2 :: c3 :: rest => [c0, c1, c2, c3] :: chunks4 rest
  | cs => [cs]

/-- `'-'.join(blocks)` at the character level. -/
def dashJoin : List (List Char) → List Char
  | [] => []
  | [g] => g
  | g :: gs => g ++ '-' :: dashJoin gs

/-- `generate_license_code`, with the sixteen characters drawn by
`secrets.choice` supplied as the argument `cs`. -/
def generate_license_code (cs : List Char) : String :=
  String.mk (dashJoin (chunks4 cs))

/-- One character class `[A-Z0-9]` of the spec's license-code regex. -/
def isUpperAlnum (c : Char) : Bool :=
  ('A' ≤ c && c ≤ 'Z') || ('0' ≤ c && c ≤ '9')

/-- Decidable rendering of `^[A-Z0-9]{4}-[A-Z0-9]{4}-[A-Z0-9]{4}-[A-Z0-9]{4}$`. -/
def licenseCodePattern (s : String) : Bool :=
  match s.toList with
  | [x0, x1, x2, x3, d0, x4, x5, x6, x7, d1, x8, x9, x10, x11, d2, x12, x13, x14, x15] =>
    [x0, x1, x2, x3, x4, x5, x6, x7, x8, x9, x10, x11, x12, x13, x14, x15].all isUpperAlnum
      && d0 == '-' && d1 == '-' && d2 == '-'
  | _ => false

/-- The records built by the generation loop of `generate_licenses`:
the `i`-th record carries the `i`-th freshly generated code. -/
def gen_license_records (n : Nat) (note : String) (gen : Nat → List Char) (now : String) :
    List License :=
  (List.range n).map fun i =>
    { code := generate_license_code (gen i)
      status := "active"
      device_id := none
      device_name := none
      activated_at := none
      created_at := now
      note := note }

/-- Responses of the generate-licenses handler. -/
inductive GenerateResponse where
  | error400 (msg : String)
  | ok (count : Int) (licenses : List String)
deriving Repr, DecidableEq

/-- `generate_licenses` handler: `count` outside 1..100 is rejected with
HTTP 400; otherwise `count` records are appended and the store is saved.
`gen i` supplies the random characters of the `i`-th code. -/
def generate_licenses (doc : LicenseDoc) (count : Int) (note : String)
    (gen : Nat → List Char) (now : String) :
    GenerateResponse × LicenseDoc × Bool :=
  if count < 1 ∨ 100 < count then
    (.error400 "Count must be between 1 and 100", doc, false)
  else
    let new_licenses := gen_license_records count.toNat note gen now
    (.ok count (new_licenses.map fun l => l.code),
     save_licenses { doc with licenses := doc.licenses ++ new_licenses } now,
     true)

/-- `delete_license` handler: filters out every record whose code equals the
path parameter, then saves unconditionally. -/
def delete_license (doc : LicenseDoc) (license_code : String) (now : String) :
    LicenseDoc × Bool :=
  (save_licenses
     { doc with licenses := doc.licenses.filter fun l => !(l.code == license_code) } now,
   true)

/-- The `for ... break` loop of `revoke_license`: reset the first record whose
code matches to `active` with the device fields cleared. -/
def revoke_first (code : String) : List License → List License
  | [] => []
  | l :: rest =>
    if l.code == code then
      { l with status := "active", device_id := none, device_name := none,
               activated_at := none } :: rest
    else
      l :: revoke_first code rest

/-- `revoke_license` handler: clear the matching record, save, answer success. -/
def revoke_license (doc : LicenseDoc) (license_code : String) (now : String) :
    LicenseDoc × Bool :=
  (save_licenses { doc with licenses := revoke_first license_code doc.licenses } now, true)

/-- Python's `str.strip()` with no argument: remove leading and trailing
whitespace.  (Stated at the character level so that it computes by kernel
reduction; `String.trim` in core is extern-backed and does not.) -/
def pyStrip (s : String) : String :=
  String.mk (((s.toList.dropWhile Char.isWhitespace).reverse.dropWhile
    Char.isWhitespace).reverse)

/-- Python's `str.upper()` on the ASCII range. -/
def pyUpper (s : String) : String :=
  String.mk (s.toList.map Char.toUpper)

/-- Python renders `None` as the string `"None"` inside an f-string. -/
def optStr : Option String → String
  | some s => s
  | none => "None"

/-- The `license_info` object of validate-license success responses. -/
structure LicenseInfo where
  code : String
  activated_at : Option String
  device_name : Option String
deriving Repr, DecidableEq

/-- Responses of the validate-license handler: HTTP 400 for missing inputs,
payload-level failure (`success: false` with HTTP 200), or success. -/
inductive ValidateResponse where
  | badRequest (message : String)
  | failure (message : String)
  | success (message : String) (license_info : LicenseInfo)
deriving Repr, DecidableEq

/-- In-place activation of the found record inside the list: the first record
whose code matches becomes `used` and bound to the requesting device. -/
def activate_first (code device_id device_name now : String) :
    List License → List License
  | [] => []
  | l :: rest =>
    if l.code == code then
      { l with status := "used", device_id := some device_id,
               device_name := some device_name, activated_at := some now } :: rest
    else
      l :: activate_first code device_id device_name now rest

/-- `validate_license` handler.  Inputs are the raw request fields; the code
is normalised by `strip().upper()` and the device id by `strip()`.  Returns
the response, the resulting store, and whether the store was saved. -/
def validate_license (doc : LicenseDoc)
    (raw_license_code raw_device_id device_name now : String) :
    ValidateResponse × LicenseDoc × Bool :=
  let license_code := pyUpper (pyStrip raw_license_code)
  let device_id := pyStrip raw_device_id
  if license_code == "" || device_id == "" then
    (.badRequest "Kode lisensi dan Device ID harus diisi", doc, false)
  else
    match doc.licenses.find? (fun l => l.code == license_code) with
    | none => (.failure "Kode lisensi tidak valid", doc, false)
    | some license_obj =>
      if license_obj.status == "revoked" then
        (.failure "Kode lisensi sudah dicabut oleh admin", doc, false)
      else if license_obj.status == "used" then
        if license_obj.device_id == some device_id then
          (.success "Lisensi valid untuk perangkat ini"
             { code := license_obj.code
               activated_at := license_obj.activated_at
               device_name := license_obj.device_name }, doc, false)
        else
          (.failure ("Kode lisensi sudah digunakan di perangkat lain ("
             ++ optStr license_obj.device_name ++ ")"), doc, false)
      else if license_obj.status == "active" then
        (.success "Lisensi berhasil diaktifkan untuk perangkat ini"
           { code := license_obj.code
             activated_at := some now
             device_name := some device_name },
         save_licenses
           { doc with licenses := activate_first license_code device_id device_name now doc.licenses }
           now,
         true)
      else
        (.failure "Status lisensi tidak valid", doc, false)

/-- Response of the check-update endpoint. -/
structure CheckUpdateResponse where
  has_update : Bool
  current_version : Int
  latest_version : Int
  latest_version_name : String
  update_required : Bool
  update_title : String
  update_message : String
  download_url : String
  whats_new : List String
  maintenance_mode : Bool
  maintenance_title : String
  maintenance_message : String
  maintenance_estimated_end : String
  last_updated : String
deriving Repr, DecidableEq

/-- `check_update` handler, reading an every-field-present document. -/
def check_update (d : UpdateInfo) (current_version : Int) : CheckUpdateResponse :=
  let latest_version := d.version_code
  let has_update := decide (latest_version > current_version)
  { has_update := has_update
    current_version := current_version
    latest_version := latest_version
    latest_version_name := d.version_name
    update_required := d.update_required && has_update
    update_title := d.update_title
    update_message := d.update_message
    download_url := d.download_url
    whats_new := d.whats_new
    maintenance_mode := d.maintenance_mode
    maintenance_title := d.maintenance_title
    maintenance_message := d.maintenance_message
    maintenance_estimated_end := d.maintenance_estimated_end
    last_updated := d.last_updated }

/-- `toggle_maintenance` handler: negate the flag, save, and answer with the
new flag value. -/
def toggle_maintenance (d : UpdateInfo) (now : String) : UpdateInfo × Bool :=
  let d' := { d with maintenance_mode := !d.maintenance_mode }
  (save_update_info d' now, d'.maintenance_mode)

/-! ### Concrete fixtures used by witnesses and counterexamples -/

/-- An every-field-present update document with a newer (5) version code and
the forced-update flag raised. -/
def exUpd : UpdateInfo :=
  { get_default_data "T0" with version_code := 5, version_name := "1.2.0", update_required := true }

/-- A stored update document from which every schema field is missing. -/
def exStored : StoredUpdateInfo :=
  { version_code := none, version_name := none, update_required := none,
    update_title := none, update_message := none, download_url := none,
    whats_new := none, maintenance_mode := none, maintenance_title := none,
    maintenance_message := none, maintenance_estimated_end := none, last_updated := none }

/-- A license already bound to device `dev1`. -/
def exLicUsed : License :=
  { code := "AAAA-BBBB-CCCC-DDDD", status := "used", device_id := some "dev1",
    device_name := some "Phone", activated_at := some "T1", created_at := "T0", note := "" }

/-- A still unbound license. -/
def exLicActive : License :=
  { code := "EEEE-FFFF-GGGG-HHHH", status := "active", device_id := none,
    device_name := none, activated_at := none, created_at := "T0", note := "" }

/-- A license store holding one used and one active record. -/
def exDoc : LicenseDoc :=
  { licenses := [exLicUsed, exLicActive], last_updated := "T0" }

/-- A fixed stream of random draws for the code generator. -/
def exGen : Nat → List Char := fun _ => "ABCD1234EFGH5678".toList

/-! ### Claim theorems -/

/-- Claim C3: for every stored update document and every integer
`current_version_code`, check-update returns
`has_update = (stored version_code > current_version_code)` and
`update_required = (stored update_required AND has_update)`; in particular,
whenever `current_version_code >= stored version_code`, the response has
`has_update = false` and `update_required = false` even if the stored
`update_required` flag is true. -/
theorem check_update_spec_C3 (d : UpdateInfo) (v : Int) :
    (check_update d v).has_update = decide (d.version_code > v)
    ∧ (check_update d v).update_required = (d.update_required && decide (d.version_code > v))
    ∧ (d.version_code ≤ v →
        (check_update d v).has_update = false ∧ (check_update d v).update_required = false) := by
  refine ⟨rfl, rfl, fun h => ?_⟩
  have hd : decide (d.version_code > v) = false := decide_eq_false (not_lt.mpr h)
  exact ⟨by simp [check_update, hd], by simp [check_update, hd]⟩

/-- Witness for C3 at a concrete document (stored version 5, forced-update
flag raised) queried with the newer client version 7. -/
theorem check_update_spec_C3_witness :
    (check_update exUpd 7).has_update = false ∧ (check_update exUpd 7).update_required = false :=
  (check_update_spec_C3 exUpd 7).2.2 (by decide)

/-- Claim C6: for both stores, when the backing file is absent or its content
is empty or invalid JSON, load returns the documented default document and, as
a side effect, writes that default document back to disk. -/
theorem load_defaults_C6 (now : String) :
    load_licenses .absent now = (get_default_license_data now, some (get_default_license_data now))
    ∧ load_licenses .empty now = (get_default_license_data now, some (get_default_license_data now))
    ∧ load_licenses .malformed now
        = (get_default_license_data now, some (get_default_license_data now))
    ∧ load_update_info .absent now
        = ((get_default_data now).toStored, some ((get_default_data now).toStored))
    ∧ load_update_info .empty now
        = ((get_default_data now).toStored, some ((get_default_data now).toStored))
    ∧ load_update_info .malformed now
        = ((get_default_data now).toStored, some ((get_default_data now).toStored)) :=
  ⟨rfl, rfl, rfl, rfl, rfl, rfl⟩

/-- Counterexample to claim C7: a stored update document missing its
`version_code` still misses it after load — the loader does not backfill it,
so a schema field can be absent from a loaded document. -/
theorem load_update_info_C7_counterexample :
    exStored.version_code = none
    ∧ ((load_update_info (.valid exStored) "T0").1).version_code = none :=
  ⟨rfl, rfl⟩

/-- Claim C7 (amended): on a successfully parsed stored document, load
backfills exactly the four maintenance fields with their defaults and passes
every other schema field through unchanged — a missing non-maintenance field
(such as `version_code`) remains absent — and writes nothing back. -/
theorem load_update_info_C7_amended (d : StoredUpdateInfo) (now : String) :
    ((load_update_info (.valid d) now).1).maintenance_mode
        = some (d.maintenance_mode.getD false)
    ∧ ((load_update_info (.valid d) now).1).maintenance_title
        = some (d.maintenance_title.getD "Aplikasi Sedang Maintenance")
    ∧ ((load_update_info (.valid d) now).1).maintenance_message
        = some (d.maintenance_message.getD
            "Mohon maaf, aplikasi sedang dalam perbaikan. Silakan coba beberapa saat lagi.")
    ∧ ((load_update_info (.valid d) now).1).maintenance_estimated_end
        = some (d.maintenance_estimated_end.getD "")
    ∧ ((load_update_info (.valid d) now).1).version_code = d.version_code
    ∧ ((load_update_info (.valid d) now).1).version_name = d.version_name
    ∧ ((load_update_info (.valid d) now).1).update_required = d.update_required
    ∧ ((load_update_info (.valid d) now).1).update_title = d.update_title
    ∧ ((load_update_info (.valid d) now).1).update_message = d.update_message
    ∧ ((load_update_info (.valid d) now).1).download_url = d.download_url
    ∧ ((load_update_info (.valid d) now).1).whats_new = d.whats_new
    ∧ ((load_update_info (.valid d) now).1).last_updated = d.last_updated
    ∧ (load_update_info (.valid d) now).2 = none :=
  ⟨rfl, rfl, rfl, rfl, rfl, rfl, rfl, rfl, rfl, rfl, rfl, rfl, rfl⟩

/-- Counterexample to claim C8: toggling maintenance does not leave every
other field unchanged — saving stamps `last_updated`, so on a document last
saved at `T0` the toggle performed at `T1` changes `last_updated`. -/
theorem toggle_maintenance_C8_counterexample :
    ¬ ((toggle_maintenance exUpd "T1").1.last_updated = exUpd.last_updated) := by
  decide

/-- Claim C8 (amended): toggle-maintenance negates `maintenance_mode`,
stamps `last_updated` with the save time, leaves every other field unchanged,
and responds with the new `maintenance_mode` value. -/
theorem toggle_maintenance_C8_amended (d : UpdateInfo) (now : String) :
    toggle_maintenance d now =
      ({ d with maintenance_mode := !d.maintenance_mode, last_updated := now },
       !d.maintenance_mode) :=
  rfl

/-- Counterexample to claim C9: deleting a code that matches no record still
re-saves the document, stamping `last_updated`, so the stored license
document is not unchanged. -/
theorem delete_license_C9_counterexample :
    (delete_license { licenses := [], last_updated := "T0" } "XXXX" "T1").2 = true
    ∧ ¬ ((delete_license { licenses := [], last_updated := "T0" } "XXXX" "T1").1
          = { licenses := [], last_updated := "T0" }) := by
  exact ⟨rfl, by decide⟩

/-- Claim C9 (amended): for every license store and every code that matches no
stored record, delete-license returns success and leaves the list of license
records unchanged, but still persists the document with a fresh
`last_updated` stamp. -/
theorem delete_license_C9_amended (doc : LicenseDoc) (code now : String)
    (h : ∀ l ∈ doc.licenses, ¬ l.code = code) :
    delete_license doc code now = ({ licenses := doc.licenses, last_updated := now }, true) := by
  unfold delete_license save_licenses
  have hf : doc.licenses.filter (fun l => !(l.code == code)) = doc.licenses := by
    apply List.filter_eq_self.mpr
    intro l hl
    simp [h l hl]
  rw [hf]

/-- Witness for the amended C9: deleting the unknown code `NOPE` from the
two-record fixture store keeps the records and restamps the document. -/
theorem delete_license_C9_amended_witness :
    delete_license exDoc "NOPE" "T9" = ({ licenses := exDoc.licenses, last_updated := "T9" }, true) :=
  delete_license_C9_amended exDoc "NOPE" "T9" (by decide)

/-- After in-place activation, looking the code up again finds the found
record re-bound to the requesting device. -/
theorem find?_activate_first (code device_id device_name now : String) (l : License)
    (ls : List License) (h : ls.find? (fun x => x.code == code) = some l) :
    (activate_first code device_id device_name now ls).find? (fun x => x.code == code)
      = some { l with
          status := "used", device_id := some device_id,
          device_name := some device_name, activated_at := some now } := by
  induction ls with
  | nil => simp at h
  | cons x ls ih =>
    by_cases hx : (x.code == code) = true
    · simp only [List.find?, hx, Option.some.injEq] at h
      subst h
      simp [activate_first, if_pos hx, List.find?, hx]
    · have hx' : (x.code == code) = false := by simpa using hx
      simp only [List.find?, hx'] at h
      simp only [activate_first, if_neg hx, List.find?, hx']
      exact ih h

/-- After the revoke loop, looking the code up again finds the found record
reset to `active` with the device fields cleared. -/
theorem find?_revoke_first (code : String) (l : License)
    (ls : List License) (h : ls.find? (fun x => x.code == code) = some l) :
    (revoke_first code ls).find? (fun x => x.code == code)
      = some { l with
          status := "active", device_id := none, device_name := none,
          activated_at := none } := by
  induction ls with
  | nil => simp at h
  | cons x ls ih =>
    by_cases hx : (x.code == code) = true
    · simp only [List.find?, hx, Option.some.injEq] at h
      subst h
      simp [revoke_first, if_pos hx, List.find?, hx]
    · have hx' : (x.code == code) = false := by simpa using hx
      simp only [List.find?, hx'] at h
      simp only [revoke_first, if_neg hx, List.find?, hx']
      exact ih h

/-- Claim C1: for validate-license with a non-empty normalized code and
non-empty device id — if the matching license is `used` and bound to the
requesting device, success with the existing activation info and no change;
if bound to a different device, a payload failure naming the bound device;
if `active`, the record is bound to this device with `activated_at = now`,
the store is persisted, and success carries that activation info. -/
theorem validate_license_spec_C1 (doc : LicenseDoc) (rawCode rawDev dname now : String)
    (l : License)
    (hne : (pyUpper (pyStrip rawCode) == "") = false)
    (hdev : (pyStrip rawDev == "") = false)
    (hfind : doc.licenses.find? (fun x => x.code == pyUpper (pyStrip rawCode)) = some l) :
    (l.status = "used" → l.device_id = some (pyStrip rawDev) →
       validate_license doc rawCode rawDev dname now =
         (.success "Lisensi valid untuk perangkat ini"
            { code := l.code, activated_at := l.activated_at, device_name := l.device_name },
          doc, false))
    ∧ (l.status = "used" → l.device_id ≠ some (pyStrip rawDev) →
       validate_license doc rawCode rawDev dname now =
         (.failure ("Kode lisensi sudah digunakan di perangkat lain ("
            ++ optStr l.device_name ++ ")"), doc, false))
    ∧ (l.status = "active" →
       validate_license doc rawCode rawDev dname now =
         (.success "Lisensi berhasil diaktifkan untuk perangkat ini"
            { code := l.code, activated_at := some now, device_name := some dname },
          { licenses := activate_first (pyUpper (pyStrip rawCode)) (pyStrip rawDev) dname now
              doc.licenses,
            last_updated := now }, true)
       ∧ (activate_first (pyUpper (pyStrip rawCode)) (pyStrip rawDev) dname now
            doc.licenses).find? (fun x => x.code == pyUpper (pyStrip rawCode))
          = some { l with
              status := "used", device_id := some (pyStrip rawDev),
              device_name := some dname, activated_at := some now }) := by
  refine ⟨fun hu hd => ?_, fun hu hd => ?_, fun ha => ⟨?_, ?_⟩⟩
  · have h1 : (l.status == "revoked") = false := by rw [hu]; decide
    have h2 : (l.status == "used") = true := by rw [hu]; decide
    have h3 : (l.device_id == some (pyStrip rawDev)) = true := by rw [hd]; simp
    simp [validate_license, hne, hdev, hfind, h1, h2, h3]
  · have h1 : (l.status == "revoked") = false := by rw [hu]; decide
    have h2 : (l.status == "used") = true := by rw [hu]; decide
    have h3 : (l.device_id == some (pyStrip rawDev)) = false := by
      simp only [beq_eq_false_iff_ne, ne_eq]
      exact hd
    simp [validate_license, hne, hdev, hfind, h1, h2, h3]
  · have h1 : (l.status == "revoked") = false := by rw [ha]; decide
    have h2 : (l.status == "used") = false := by rw [ha]; decide
    have h3 : (l.status == "active") = true := by rw [ha]; decide
    simp [validate_license, hne, hdev, hfind, h1, h2, h3, save_licenses]
  · exact find?_activate_first (pyUpper (pyStrip rawCode)) (pyStrip rawDev) dname now l
      doc.licenses hfind

/-- Witness for C1: re-validating the fixture store's used license from its
bound device `dev1` answers the stored activation info and leaves the store
as it was. -/
theorem validate_license_spec_C1_witness :
    validate_license exDoc "AAAA-BBBB-CCCC-DDDD" "dev1" "Phone" "T2" =
      (.success "Lisensi valid untuk perangkat ini"
         { code := "AAAA-BBBB-CCCC-DDDD", activated_at := some "T1", device_name := some "Phone" },
       exDoc, false) :=
  (validate_license_spec_C1 exDoc "AAAA-BBBB-CCCC-DDDD" "dev1" "Phone" "T2" exLicUsed
    (by decide) (by decide) (by decide)).1 rfl rfl

/-- Claim C4: for every license store and every normalized code matching no
stored record, validate-license returns the payload-level failure "invalid
code" (HTTP success) and does not mutate or save the store. -/
theorem validate_license_unknown_C4 (doc : LicenseDoc) (rawCode rawDev dname now : String)
    (hne : (pyUpper (pyStrip rawCode) == "") = false)
    (hdev : (pyStrip rawDev == "") = false)
    (hfind : doc.licenses.find? (fun x => x.code == pyUpper (pyStrip rawCode)) = none) :
    validate_license doc rawCode rawDev dname now =
      (.failure "Kode lisensi tidak valid", doc, false) := by
  simp [validate_license, hne, hdev, hfind]

/-- Witness for C4: an unknown code against the fixture store. -/
theorem validate_license_unknown_C4_witness :
    validate_license exDoc "ZZZZ-ZZZZ-ZZZZ-ZZZZ" "devX" "Phone" "T2" =
      (.failure "Kode lisensi tidak valid", exDoc, false) :=
  validate_license_unknown_C4 exDoc "ZZZZ-ZZZZ-ZZZZ-ZZZZ" "devX" "Phone" "T2"
    (by decide) (by decide) (by decide)

/-- Claim C10 (implicit): re-validation of a used license by its bound device
performs no write at all — the store (with its `last_updated` stamp) comes
back untouched and unsaved — unlike the `active` branch, which saves. -/
theorem validate_license_no_write_C10 (doc : LicenseDoc) (rawCode rawDev dname now : String)
    (l : License)
    (hne : (pyUpper (pyStrip rawCode) == "") = false)
    (hdev : (pyStrip rawDev == "") = false)
    (hfind : doc.licenses.find? (fun x => x.code == pyUpper (pyStrip rawCode)) = some l) :
    (l.status = "used" → l.device_id = some (pyStrip rawDev) →
       (validate_license doc rawCode rawDev dname now).2.1 = doc
       ∧ (validate_license doc rawCode rawDev dname now).2.2 = false)
    ∧ (l.status = "active" →
       (validate_license doc rawCode rawDev dname now).2.2 = true) := by
  refine ⟨fun hu hd => ?_, fun ha => ?_⟩
  · have h1 : (l.status == "revoked") = false := by rw [hu]; decide
    have h2 : (l.status == "used") = true := by rw [hu]; decide
    have h3 : (l.device_id == some (pyStrip rawDev)) = true := by rw [hd]; simp
    constructor <;> simp [validate_license, hne, hdev, hfind, h1, h2, h3]
  · have h1 : (l.status == "revoked") = false := by rw [ha]; decide
    have h2 : (l.status == "used") = false := by rw [ha]; decide
    have h3 : (l.status == "active") = true := by rw [ha]; decide
    simp [validate_license, hne, hdev, hfind, h1, h2, h3, save_licenses]

/-- Witness for C10: the fixture re-validation writes nothing back. -/
theorem validate_license_no_write_C10_witness :
    (validate_license exDoc "AAAA-BBBB-CCCC-DDDD" "dev1" "Phone" "T2").2.1 = exDoc
    ∧ (validate_license exDoc "AAAA-BBBB-CCCC-DDDD" "dev1" "Phone" "T2").2.2 = false :=
  (validate_license_no_write_C10 exDoc "AAAA-BBBB-CCCC-DDDD" "dev1" "Phone" "T2" exLicUsed
    (by decide) (by decide) (by decide)).1 rfl rfl

/-- Claim C5: revoke-license resets the matching record to `active` with the
device fields cleared and persists (stamping `last_updated`); afterwards
validate-license with that code succeeds for any device, re-binding the
license to it. -/
theorem revoke_license_spec_C5 (doc : LicenseDoc) (c dev dname now now2 : String) (l : License)
    (hfind : doc.licenses.find? (fun x => x.code == c) = some l)
    (hnorm : pyUpper (pyStrip c) = c)
    (hne : (c == "") = false)
    (hdev : (pyStrip dev == "") = false) :
    (revoke_license doc c now).1.licenses.find? (fun x => x.code == c)
        = some { l with
            status := "active", device_id := none, device_name := none,
            activated_at := none }
    ∧ (revoke_license doc c now).1.last_updated = now
    ∧ (revoke_license doc c now).2 = true
    ∧ validate_license (revoke_license doc c now).1 c dev dname now2
        = (.success "Lisensi berhasil diaktifkan untuk perangkat ini"
             { code := l.code, activated_at := some now2, device_name := some dname },
           { licenses := activate_first c (pyStrip dev) dname now2 (revoke_first c doc.licenses),
             last_updated := now2 }, true) := by
  have hrf := find?_revoke_first c l doc.licenses hfind
  have e1 : (("active" : String) == "revoked") = false := by decide
  have e2 : (("active" : String) == "used") = false := by decide
  have e3 : (("active" : String) == "active") = true := by decide
  refine ⟨by simpa [revoke_license, save_licenses] using hrf, rfl, rfl, ?_⟩
  simp only [validate_license, revoke_license, save_licenses]
  rw [hnorm]
  simp [hne, hdev, hrf, e1, e2, e3]

/-- Witness for C5: after revoking the fixture's used license, a different
device `dev2` successfully activates the same code. -/
theorem revoke_license_spec_C5_witness :
    (validate_license (revoke_license exDoc "AAAA-BBBB-CCCC-DDDD" "T5").1
        "AAAA-BBBB-CCCC-DDDD" "dev2" "Tablet" "T6").1
      = .success "Lisensi berhasil diaktifkan untuk perangkat ini"
          { code := "AAAA-BBBB-CCCC-DDDD", activated_at := some "T6",
            device_name := some "Tablet" } :=
  congrArg Prod.fst
    ((revoke_license_spec_C5 exDoc "AAAA-BBBB-CCCC-DDDD" "dev2" "Tablet" "T5" "T6" exLicUsed
      (by decide) (by decide) (by decide) (by decide)).2.2.2)

/-- Every character of the generation alphabet is uppercase alphanumeric. -/
theorem license_chars_upperAlnum : ∀ c ∈ license_chars, isUpperAlnum c = true := by decide

/-- Sixteen draws from the alphabet always format to a string matching the
license-code regex. -/
theorem generate_license_code_pattern (cs : List Char) (hlen : cs.length = 16)
    (hmem : ∀ c ∈ cs, isUpperAlnum c = true) :
    licenseCodePattern (generate_license_code cs) = true := by
  rcases cs with _ | ⟨a0, cs⟩; · simp at hlen
  rcases cs with _ | ⟨a1, cs⟩; · simp at hlen
  rcases cs with _ | ⟨a2, cs⟩; · simp at hlen
  rcases cs with _ | ⟨a3, cs⟩; · simp at hlen
  rcases cs with _ | ⟨a4, cs⟩; · simp at hlen
  rcases cs with _ | ⟨a5, cs⟩; · simp at hlen
  rcases cs with _ | ⟨a6, cs⟩; · simp at hlen
  rcases cs with _ | ⟨a7, cs⟩; · simp at hlen
  rcases cs with _ | ⟨a8, cs⟩; · simp at hlen
  rcases cs with _ | ⟨a9, cs⟩; · simp at hlen
  rcases cs with _ | ⟨a10, cs⟩; · simp at hlen
  rcases cs with _ | ⟨a11, cs⟩; · simp at hlen
  rcases cs with _ | ⟨a12, cs⟩; · simp at hlen
  rcases cs with _ | ⟨a13, cs⟩; · simp at hlen
  rcases cs with _ | ⟨a14, cs⟩; · simp at hlen
  rcases cs with _ | ⟨a15, cs⟩; · simp at hlen
  have hnil : cs = [] := by
    rcases cs with _ | ⟨a16, cs⟩
    · rfl
    · simp at hlen
  subst hnil
  simp only [List.mem_cons, List.not_mem_nil, forall_eq_or_imp, forall_eq, or_false] at hmem
  obtain ⟨h0, h1, h2, h3, h4, h5, h6, h7, h8, h9, h10, h11, h12, h13, h14, h15⟩ := hmem
  simp [generate_license_code, chunks4, dashJoin, licenseCodePattern, String.toList,
    h0, h1, h2, h3, h4, h5, h6, h7, h8, h9, h10, h11, h12, h13, h14, h15]

/-- Claim C2: generate-licenses rejects a count outside 1..100 with HTTP 400
and leaves the store untouched; for a count in range it appends exactly
`count` fresh records — each with a code matching the dash-grouped
uppercase-alphanumeric pattern, status `active`, no device binding,
`created_at = now`, and the given note — and persists the store. -/
theorem generate_licenses_spec_C2 (doc : LicenseDoc) (count : Int) (note now : String)
    (gen : Nat → List Char)
    (hgen : ∀ i, (gen i).length = 16 ∧ ∀ c ∈ gen i, c ∈ license_chars) :
    ((count < 1 ∨ 100 < count) →
       generate_licenses doc count note gen now
         = (.error400 "Count must be between 1 and 100", doc, false))
    ∧ (1 ≤ count → count ≤ 100 →
       generate_licenses doc count note gen now
         = (.ok count ((gen_license_records count.toNat note gen now).map fun l => l.code),
            { licenses := doc.licenses ++ gen_license_records count.toNat note gen now,
              last_updated := now }, true)
       ∧ (gen_license_records count.toNat note gen now).length = count.toNat
       ∧ (∀ r ∈ gen_license_records count.toNat note gen now,
            r.status = "active" ∧ r.device_id = none ∧ r.device_name = none
            ∧ r.activated_at = none ∧ r.created_at = now ∧ r.note = note
            ∧ licenseCodePattern r.code = true)) := by
  constructor
  · intro h
    unfold generate_licenses
    rw [if_pos h]
  · intro h1 h2
    have hcond : ¬(count < 1 ∨ 100 < count) := by omega
    refine ⟨?_, ?_, ?_⟩
    · unfold generate_licenses
      rw [if_neg hcond]
      rfl
    · simp [gen_license_records]
    · intro r hr
      simp only [gen_license_records, List.mem_map, List.mem_range] at hr
      obtain ⟨i, _, rfl⟩ := hr
      obtain ⟨hlen, hmem⟩ := hgen i
      exact ⟨rfl, rfl, rfl, rfl, rfl, rfl,
        generate_license_code_pattern (gen i) hlen
          (fun c hc => license_chars_upperAlnum c (hmem c hc))⟩

/-- The fixture draw stream always yields sixteen alphabet characters. -/
theorem exGen_spec : ∀ i, (exGen i).length = 16 ∧ ∀ c ∈ exGen i, c ∈ license_chars := by
  intro i
  show ("ABCD1234EFGH5678".toList).length = 16
    ∧ ∀ c ∈ "ABCD1234EFGH5678".toList, c ∈ license_chars
  decide

/-- Witness for C2: generating two licenses from a fixed draw stream appends
two fresh `active` records to the fixture store and saves it. -/
theorem generate_licenses_spec_C2_witness :
    generate_licenses exDoc 2 "batch1" exGen "T3"
      = (.ok 2 ((gen_license_records 2 "batch1" exGen "T3").map fun l => l.code),
         { licenses := exDoc.licenses ++ gen_license_records 2 "batch1" exGen "T3",
           last_updated := "T3" }, true)
    ∧ (gen_license_records 2 "batch1" exGen "T3").length = 2 :=
  ⟨((generate_licenses_spec_C2 exDoc 2 "batch1" "T3" exGen
      exGen_spec).2 (by decide) (by decide)).1,
   ((generate_licenses_spec_C2 exDoc 2 "batch1" "T3" exGen
      exGen_spec).2 (by decide) (by decide)).2.1⟩
